import Mathlib

/-!
Verification of `run_server.py` (jimakuChan).

The script is ten lines: it constructs
`HTTPServer(('localhost', 4443), SimpleHTTPRequestHandler)`, replaces the
listening socket by `ssl.wrap_socket(..., keyfile="./localhost-key.pem",
certfile='./localhost.pem', server_side=True)`, and calls `serve_forever()`.
All request handling is the CPython 3.11 standard library
(`http/server.py`, `socketserver.py`, `ssl.py`, `posixpath.py`,
`urllib/parse.py`, `email/_parseaddr.py`).  This file shallowly embeds the
reachable parts of those functions and proves the specification claims
against them.

Modelling conventions:
* Python `str` is `PyStr := List Char`; Python bytes values are
  `List UInt8`, with `encode('utf-8')` embedded as a real UTF-8 encoder.
  `urllib.parse.unquote` is embedded at the character level: each decoded
  `%XX` byte becomes the character with that code point (multi-byte UTF-8
  sequences are kept as their constituent byte code points).
* `str.lower`/`str.upper` are embedded for the ASCII range, which covers
  every string the handler compares case-insensitively.
* CPython's `urlsplit` can raise `ValueError` (mismatched or invalid
  bracketed netlocs, non-ASCII netlocs rejected by `_checknetloc`); the
  embedding models its returning behavior, and the theorems whose code
  path reaches it carry the `urlsplitReturns` guard delimiting exactly
  the inputs CPython returns on.  The exact listing-body statement
  additionally restricts directory entry names and the percent-decoded
  request path to ASCII, where the embedded sort key and `unquote`
  coincide exactly with CPython's full-Unicode versions.
* The filesystem, the `mimetypes` database, the wall clock and
  `sys.version` live in a `World` record; `open`/`os.listdir` failure
  (`OSError`) is `Option.none`.  A file's `fstat` size is the length of
  the byte list `copyfile` will stream (a static snapshot, so no
  concurrent mutation between `fstat` and the read loop).
* `st_mtime` is modelled in whole seconds.
-/

abbrev PyStr := List Char

/-- Python `str.split(sep)` for a one-character separator:
`''.split(c) = ['']`, and adjacent separators produce empty fields. -/
def pySplit (sep : Char) : PyStr → List PyStr
  | [] => [[]]
  | c :: cs =>
    match pySplit sep cs with
    | [] => [[]]
    | w :: ws => if c == sep then [] :: w :: ws else (c :: w) :: ws

/-- First field of Python `s.split(sep, 1)`: the prefix before the first
occurrence of `sep` (all of `s` when `sep` is absent). -/
def splitFirst (sep : Char) (s : PyStr) : PyStr :=
  s.takeWhile (fun c => c != sep)

/-- Python `str.rstrip()` (no argument): drop trailing whitespace. -/
def pyRstrip (s : PyStr) : PyStr :=
  (s.reverse.dropWhile (fun c => c.isWhitespace)).reverse

/-- Python `str.rstrip(c)` for a single strip character. -/
def rstripChar (c : Char) (s : PyStr) : PyStr :=
  (s.reverse.dropWhile (fun x => x == c)).reverse

/-- Python `s.endswith(c)` for a one-character suffix. -/
def pyEndsWith (c : Char) (s : PyStr) : Bool :=
  s.getLast? == some c

/-- Python `s.rfind(c)`: index of the last occurrence, `none` when absent
(Python returns `-1`). -/
def rfindChar (c : Char) : PyStr → Option Nat
  | [] => none
  | x :: xs =>
    match rfindChar c xs with
    | some i => some (i + 1)
    | none => if x == c then some 0 else none

/-- Python `s.find(c)`: index of the first occurrence, `none` when absent. -/
def findChar (c : Char) : PyStr → Option Nat
  | [] => none
  | x :: xs => if x == c then some 0 else (findChar c xs).map (· + 1)

/-- Value of a hexadecimal digit, `none` for other characters. -/
def hexVal (c : Char) : Option Nat :=
  if '0' ≤ c ∧ c ≤ '9' then some (c.toNat - '0'.toNat)
  else if 'a' ≤ c ∧ c ≤ 'f' then some (c.toNat - 'a'.toNat + 10)
  else if 'A' ≤ c ∧ c ≤ 'F' then some (c.toNat - 'A'.toNat + 10)
  else none

/-- `urllib.parse.unquote`: replace each `%XX` hex escape by the character
with code point `XX`; a `%` not followed by two hex digits is kept
verbatim (CPython keeps the malformed tail literally). -/
def unquoteList : PyStr → PyStr
  | [] => []
  | '%' :: a :: b :: rest2 =>
    match hexVal a, hexVal b with
    | some ha, some hb => Char.ofNat (16 * ha + hb) :: unquoteList rest2
    | _, _ => '%' :: unquoteList (a :: b :: rest2)
  | c :: rest => c :: unquoteList rest

/-- `posixpath.dirname`: `head = p[:p.rfind('/')+1]`, stripped of trailing
slashes unless it consists only of slashes. -/
def osDirname (p : PyStr) : PyStr :=
  match rfindChar '/' p with
  | none => []
  | some i =>
    let head := p.take (i + 1)
    if head ≠ [] ∧ ¬ head.all (fun x => x == '/') then rstripChar '/' head else head

/-- `posixpath.join` for two components: an absolute second component
discards the first; otherwise insert `'/'` unless the first is empty or
already ends with `'/'`. -/
def osJoin (a b : PyStr) : PyStr :=
  if b.head? == some '/' then b
  else if a = [] ∨ a.getLast? = some '/' then a ++ b
  else a ++ '/' :: b

/-- Join a list of components with a separator (Python `sep.join(comps)`). -/
def joinSep (sep : Char) : List PyStr → PyStr
  | [] => []
  | [w] => w
  | w :: ws => w ++ sep :: joinSep sep ws

/-- Loop body of `posixpath.normpath`: skip `''` and `'.'`; keep a
component unless it is a `'..'` that cancels a previous real component. -/
def npStep (initialSlashes : Nat) (acc : List PyStr) (comp : PyStr) : List PyStr :=
  if comp = [] ∨ comp = ['.'] then acc
  else if comp ≠ ['.', '.'] ∨ (initialSlashes = 0 ∧ acc = []) ∨
      (acc ≠ [] ∧ acc.getLast? = some ['.', '.']) then
    acc ++ [comp]
  else if acc ≠ [] then acc.dropLast
  else acc

/-- `posixpath.normpath` (pure-Python algorithm of CPython 3.11). -/
def posixNormpath (path : PyStr) : PyStr :=
  if path = [] then ['.']
  else
    let init1 : Nat := if path.take 1 = ['/'] then 1 else 0
    let initialSlashes : Nat :=
      if init1 = 1 ∧ path.take 2 = ['/', '/'] ∧ path.take 3 ≠ ['/', '/', '/'] then 2
      else init1
    let comps := pySplit '/' path
    let newComps := comps.foldl (npStep initialSlashes) []
    let joined := List.replicate initialSlashes '/' ++ joinSep '/' newComps
    if joined = [] then ['.'] else joined

/-- Loop body of `SimpleHTTPRequestHandler.translate_path`: a word with a
nonempty `dirname`, or equal to `os.curdir`/`os.pardir`, is ignored;
other words are joined onto the path. -/
def tpStep (path word : PyStr) : PyStr :=
  if osDirname word ≠ [] ∨ word = ['.'] ∨ word = ['.', '.'] then path
  else osJoin path word

/-- `SimpleHTTPRequestHandler.translate_path` (CPython 3.11): strip query
and fragment, remember an explicit trailing slash, percent-decode,
normalize, then rebuild from the document root keeping only simple
file/directory names. -/
def translate_path (directory path : PyStr) : PyStr :=
  let p1 := splitFirst '?' path
  let p2 := splitFirst '#' p1
  let trailingSlash := pyEndsWith '/' (pyRstrip p2)
  let p3 := unquoteList p2
  let p4 := posixNormpath p3
  let words := (pySplit '/' p4).filter (fun w => decide (w ≠ []))
  let base := words.foldl tpStep directory
  if trailingSlash then base ++ ['/'] else base

/-- A path component that `translate_path` will append: nonempty, free of
separators, and not one of the special names `.` and `..`. -/
def simpleComponent (w : PyStr) : Prop :=
  w ≠ [] ∧ '/' ∉ w ∧ w ≠ ['.'] ∧ w ≠ ['.', '.']

instance (w : PyStr) : Decidable (simpleComponent w) := by
  unfold simpleComponent; infer_instance

/-- Fold of `posixpath.join` over a component list, starting at the root. -/
def joinAll (directory : PyStr) (ws : List PyStr) : PyStr :=
  ws.foldl osJoin directory

/-- ASCII `str.lower` on one character; the handler only compares ASCII
tokens (header names, month/day names) case-insensitively. -/
def asciiLower (c : Char) : Char :=
  if 'A' ≤ c ∧ c ≤ 'Z' then Char.ofNat (c.toNat + 32) else c

/-- ASCII `str.upper` on one character. -/
def asciiUpper (c : Char) : Char :=
  if 'a' ≤ c ∧ c ≤ 'z' then Char.ofNat (c.toNat - 32) else c

/-- Python `str.lower` (ASCII range). -/
def lowerStr (s : PyStr) : PyStr := s.map asciiLower

/-- Python `str.upper` (ASCII range). -/
def upperStr (s : PyStr) : PyStr := s.map asciiUpper

/-- Python `str(n)` for a natural number. -/
def natToPyStr (n : Nat) : PyStr := (Nat.repr n).data

/-- `%02d` formatting of a nonnegative value. -/
def pad2 (n : Nat) : PyStr :=
  if n < 10 then '0' :: natToPyStr n else natToPyStr n

/-- `%04d` formatting of a nonnegative value. -/
def pad4 (n : Nat) : PyStr :=
  let s := natToPyStr n
  List.replicate (4 - s.length) '0' ++ s

/-- UTF-8 encoding of one character. -/
def utf8Bytes (c : Char) : List UInt8 :=
  let n := c.toNat
  if n < 128 then [UInt8.ofNat n]
  else if n < 2048 then
    [UInt8.ofNat (192 + n / 64), UInt8.ofNat (128 + n % 64)]
  else if n < 65536 then
    [UInt8.ofNat (224 + n / 4096), UInt8.ofNat (128 + n / 64 % 64),
      UInt8.ofNat (128 + n % 64)]
  else
    [UInt8.ofNat (240 + n / 262144), UInt8.ofNat (128 + n / 4096 % 64),
      UInt8.ofNat (128 + n / 64 % 64), UInt8.ofNat (128 + n % 64)]

/-- Python `str.encode('utf-8')`. -/
def encodeUTF8 (s : PyStr) : List UInt8 :=
  s.foldr (fun c acc => utf8Bytes c ++ acc) []

/-- `html.escape(s, quote=False)`: replace `&`, `<`, `>` by entities. -/
def htmlEscape (s : PyStr) : PyStr :=
  s.foldr (fun c acc =>
    (if c == '&' then "&amp;".data
      else if c == '<' then "&lt;".data
      else if c == '>' then "&gt;".data
      else [c]) ++ acc) []

/-- Upper-case hexadecimal digit for a value below 16. -/
def hexDigitUpper (n : Nat) : Char :=
  if n < 10 then Char.ofNat ('0'.toNat + n) else Char.ofNat ('A'.toNat + n - 10)

/-- `urllib.parse.quote` with the default `safe='/'`: keep unreserved
characters and `'/'`, percent-encode the UTF-8 bytes of the rest. -/
def urlQuote (s : PyStr) : PyStr :=
  s.foldr (fun c acc =>
    (if ('A' ≤ c ∧ c ≤ 'Z') ∨ ('a' ≤ c ∧ c ≤ 'z') ∨ ('0' ≤ c ∧ c ≤ '9') ∨
        c = '_' ∨ c = '.' ∨ c = '-' ∨ c = '~' ∨ c = '/' then [c]
      else (utf8Bytes c).foldr (fun b b_acc =>
        '%' :: hexDigitUpper (b.toNat / 16) :: hexDigitUpper (b.toNat % 16) :: b_acc) [])
      ++ acc) []

/-- Python `str.strip()` (no argument): drop leading and trailing
whitespace. -/
def pyStrip (s : PyStr) : PyStr :=
  ((s.dropWhile (fun c => c.isWhitespace)).reverse.dropWhile
    (fun c => c.isWhitespace)).reverse

/-- Decimal value of a nonempty all-digit string. -/
def digitsVal (ds : PyStr) : Option Nat :=
  if ds ≠ [] ∧ ds.all (fun c => c.isDigit) then
    some (ds.foldl (fun a c => 10 * a + (c.toNat - '0'.toNat)) 0)
  else none

/-- Python `int(s)` (base 10): strip whitespace, optional sign, decimal
digits; `none` models `ValueError`.  (The underscore digit-grouping
feature of Python's `int` is not exercised by any date header and is not
modelled.) -/
def pyInt (s : PyStr) : Option Int :=
  match pyStrip s with
  | '+' :: ds => (digitsVal ds).map (fun n => (n : Int))
  | '-' :: ds => (digitsVal ds).map (fun n => -(n : Int))
  | ds => (digitsVal ds).map (fun n => (n : Int))

/-- Accumulator loop for `str.split()` with no argument: split on runs of
whitespace, producing no empty fields. -/
def splitWsAux : PyStr → PyStr → List PyStr
  | [], cur => if cur = [] then [] else [cur.reverse]
  | c :: cs, cur =>
    if c.isWhitespace then
      if cur = [] then splitWsAux cs [] else cur.reverse :: splitWsAux cs []
    else splitWsAux cs (c :: cur)

/-- Python `str.split()` with no argument. -/
def pySplitWs (s : PyStr) : List PyStr := splitWsAux s []

/-- Days since 1970-01-01 of a proleptic-Gregorian civil date
(days-from-civil algorithm, as computed by `datetime`). -/
def daysFromCivil (y m d : Int) : Int :=
  let y' := if m ≤ 2 then y - 1 else y
  let era : Int := Int.fdiv y' 400
  let yoe : Int := y' - era * 400
  let doy : Int := Int.fdiv (153 * (if m > 2 then m - 3 else m + 9) + 2) 5 + d - 1
  let doe : Int := yoe * 365 + Int.fdiv yoe 4 - Int.fdiv yoe 100 + doy
  era * 146097 + doe - 719468

/-- POSIX timestamp of a UTC civil datetime (whole seconds). -/
def civilToEpoch (y m d hh mi ss : Int) : Int :=
  daysFromCivil y m d * 86400 + hh * 3600 + mi * 60 + ss

/-- Civil `(year, month, day)` from nonnegative days since the epoch
(civil-from-days algorithm, as computed by `time.gmtime`). -/
def civilFromDays (z0 : Nat) : Nat × Nat × Nat :=
  let z := z0 + 719468
  let era := z / 146097
  let doe := z % 146097
  let yoe := (doe - doe / 1460 + doe / 36524 - doe / 146096) / 365
  let y := yoe + era * 400
  let doy := doe - (365 * yoe + yoe / 4 - yoe / 100)
  let mp := (5 * doy + 2) / 153
  let d := doy - (153 * mp + 2) / 5 + 1
  let m := if mp < 10 then mp + 3 else mp - 9
  (if m ≤ 2 then y + 1 else y, m, d)

/-- Abbreviated weekday names used by `email.utils.formatdate`. -/
def weekdayNames : List PyStr :=
  ["Mon", "Tue", "Wed", "Thu", "Fri", "Sat", "Sun"].map (fun s => s.data)

/-- Abbreviated month names used by `email.utils.formatdate`. -/
def monthAbbrevs : List PyStr :=
  ["Jan", "Feb", "Mar", "Apr", "May", "Jun", "Jul", "Aug", "Sep", "Oct",
    "Nov", "Dec"].map (fun s => s.data)

/-- `email.utils.formatdate(timestamp, usegmt=True)` on an integral
timestamp: the RFC 2822 date line sent in `Date` and `Last-Modified`
headers. -/
def formatdateGMT (t : Nat) : PyStr :=
  let days := t / 86400
  let secs := t % 86400
  let ymd := civilFromDays days
  let wd := (days + 3) % 7
  (weekdayNames.getD wd []) ++ ", ".data ++ pad2 ymd.2.2 ++ [' '] ++
    (monthAbbrevs.getD (ymd.2.1 - 1) []) ++ [' '] ++ pad4 ymd.1 ++ [' '] ++
    pad2 (secs / 3600) ++ [':'] ++ pad2 (secs % 3600 / 60) ++ [':'] ++
    pad2 (secs % 60) ++ " GMT".data

/-- `email._parseaddr._monthnames`. -/
def monthNamesLower : List PyStr :=
  ["jan", "feb", "mar", "apr", "may", "jun", "jul", "aug", "sep", "oct",
    "nov", "dec", "january", "february", "march", "april", "may", "june",
    "july", "august", "september", "october", "november",
    "december"].map (fun s => s.data)

/-- `email._parseaddr._daynames`. -/
def dayNamesLower : List PyStr :=
  ["mon", "tue", "wed", "thu", "fri", "sat", "sun"].map (fun s => s.data)

/-- `email._parseaddr._timezones` (offsets in `±hhmm` form, scaled to
seconds later exactly as the source does). -/
def timezoneTable : List (PyStr × Int) :=
  [("UT", (0 : Int)), ("UTC", 0), ("GMT", 0), ("Z", 0), ("AST", -400),
    ("ADT", -300), ("EST", -500), ("EDT", -400), ("CST", -600),
    ("CDT", -500), ("MST", -700), ("MDT", -600), ("PST", -800),
    ("PDT", -700)].map (fun p => (p.1.data, p.2))

/-- Result of `_parsedate_tz`: year, month, day, hour, minute, second and
timezone offset in seconds (`none` models Python `None`). -/
structure ParsedDate where
  yy : Int
  mm : Nat
  dd : Int
  thh : Int
  tmm : Int
  tss : Int
  tzoffset : Option Int
deriving DecidableEq

/-- `email._parseaddr._parsedate_tz` (CPython 3.11). -/
def parsedateTz (data : PyStr) : Option ParsedDate :=
  if data = [] then none
  else
    let toks0 := pySplitWs data
    if toks0 = [] then none
    else
      let toks1 :=
        match toks0 with
        | [] => []
        | t0 :: rest =>
          if pyEndsWith ',' t0 ∨ lowerStr t0 ∈ dayNamesLower then rest
          else
            match rfindChar ',' t0 with
            | some i => (t0.drop (i + 1)) :: rest
            | none => t0 :: rest
      let toks2 :=
        if toks1.length = 3 then
          match toks1 with
          | t0 :: rest =>
            let stuff := pySplit '-' t0
            if stuff.length = 3 then stuff ++ rest else toks1
          | [] => toks1
        else toks1
      let toks3 :=
        if toks2.length = 4 then
          match toks2.getLast? with
          | some s =>
            let i := match findChar '+' s with
              | some i => some i
              | none => findChar '-' s
            match i with
            | some i =>
              if i > 0 then toks2.take 3 ++ [s.take i, s.drop i]
              else toks2 ++ [[]]
            | none => toks2 ++ [[]]
          | none => toks2
        else toks2
      if toks3.length < 5 then none
      else
        match toks3.take 5 with
        | [dd0, mm0, yy0, tm0, tz0] =>
          if dd0 = [] ∨ mm0 = [] ∨ yy0 = [] then none
          else
            let mmL := lowerStr mm0
            let dm : Option (PyStr × PyStr) :=
              if mmL ∈ monthNamesLower then some (dd0, mmL)
              else
                let mm1 := lowerStr dd0
                if mm1 ∈ monthNamesLower then some (mm0, mm1) else none
            match dm with
            | none => none
            | some (dd1, mmName) =>
              let mmIdx0 := monthNamesLower.indexOf mmName + 1
              let mmIdx : Nat := if mmIdx0 > 12 then mmIdx0 - 12 else mmIdx0
              let dd2 := if pyEndsWith ',' dd1 then dd1.dropLast else dd1
              let ytv :=
                match findChar ':' yy0 with
                | some i => if i > 0 then (tm0, yy0) else (yy0, tm0)
                | none => (yy0, tm0)
              let yyTrim : Option PyStr :=
                if pyEndsWith ',' ytv.1 then
                  let y2 := ytv.1.dropLast
                  if y2 = [] then none else some y2
                else some ytv.1
              match yyTrim with
              | none => none
              | some yy2 =>
                let ytz :=
                  match yy2.head? with
                  | some c => if c.isDigit then (yy2, tz0) else (tz0, yy2)
                  | none => (yy2, tz0)
                let tm2 := if pyEndsWith ',' ytv.2 then ytv.2.dropLast else ytv.2
                let tmParts := pySplit ':' tm2
                let hms : Option (PyStr × PyStr × PyStr) :=
                  match tmParts with
                  | [a, b] => some (a, b, ['0'])
                  | [a, b, c] => some (a, b, c)
                  | [a] =>
                    if '.' ∈ a then
                      match pySplit '.' a with
                      | [x, y] => some (x, y, ['0'])
                      | [x, y, z] => some (x, y, z)
                      | _ => none
                    else none
                  | _ => none
                match hms with
                | none => none
                | some (thhS, tmmS, tssS) =>
                  match pyInt ytz.1, pyInt dd2, pyInt thhS, pyInt tmmS,
                      pyInt tssS with
                  | some yyV, some ddV, some thhV, some tmmV, some tssV =>
                    let yyV2 := if yyV < 100 then
                        (if yyV > 68 then yyV + 1900 else yyV + 2000)
                      else yyV
                    let tzU := upperStr ytz.2
                    let tzRaw : Option Int :=
                      match timezoneTable.find? (fun p => decide (p.1 = tzU)) with
                      | some p => some p.2
                      | none => pyInt tzU
                    let tzRaw2 : Option Int :=
                      match tzRaw with
                      | some v =>
                        if v = 0 ∧ ytz.2.head? = some '-' then none else some v
                      | none => none
                    let tzScaled : Option Int :=
                      match tzRaw2 with
                      | some v =>
                        if v = 0 then some 0
                        else
                          let sgn : Int := if v < 0 then -1 else 1
                          let av : Int := if v < 0 then -v else v
                          some (sgn * (Int.fdiv av 100 * 3600 +
                            Int.fmod av 100 * 60))
                      | none => none
                    some ⟨yyV2, mmIdx, ddV, thhV, tmmV, tssV, tzScaled⟩
                  | _, _, _, _, _ => none
        | _ => none

/-- Gregorian leap-year test, as in `datetime`. -/
def isLeap (y : Int) : Bool :=
  decide ((Int.fmod y 4 = 0 ∧ Int.fmod y 100 ≠ 0) ∨ Int.fmod y 400 = 0)

/-- Length of a month, as validated by the `datetime` constructor. -/
def daysInMonth (y m : Int) : Int :=
  if m = 2 then (if isLeap y then 29 else 28)
  else if m = 4 ∨ m = 6 ∨ m = 9 ∨ m = 11 then 30
  else 31

/-- Range validation performed by the `datetime.datetime` constructor;
out-of-range fields raise `ValueError`, which the handler catches. -/
def datetimeFieldsValid (p : ParsedDate) : Bool :=
  decide (1 ≤ p.yy ∧ p.yy ≤ 9999 ∧ 1 ≤ p.mm ∧ p.mm ≤ 12 ∧
    1 ≤ p.dd ∧ p.dd ≤ daysInMonth p.yy p.mm ∧
    0 ≤ p.thh ∧ p.thh < 24 ∧ 0 ≤ p.tmm ∧ p.tmm < 60 ∧
    0 ≤ p.tss ∧ p.tss < 60)

/-- The `If-Modified-Since` check of `send_head`: `true` when the header
value yields a 304.  `email.utils.parsedate_to_datetime` raising
(`ValueError` from `_parsedate_tz` failure or from the `datetime`
constructor) is caught and means no 304; a parsed datetime is compared
only when the handler sees the UTC timezone object — a naive result
(`tzoffset = None`) has UTC substituted, an offset of zero yields the UTC
singleton, and any other offset fails the `is timezone.utc` test. -/
def ims304 (mtime : Nat) (hv : PyStr) : Bool :=
  match parsedateTz hv with
  | none => false
  | some p =>
    if ¬ datetimeFieldsValid p then false
    else
      match p.tzoffset with
      | none =>
        decide ((mtime : Int) ≤
          civilToEpoch p.yy (p.mm : Int) p.dd p.thh p.tmm p.tss)
      | some 0 =>
        decide ((mtime : Int) ≤
          civilToEpoch p.yy (p.mm : Int) p.dd p.thh p.tmm p.tss)
      | some _ => false

/-- Snapshot of a successfully opened regular file: the bytes `copyfile`
will stream and the stat modification time (whole seconds).  `fstat`'s
`st_size` (`fs[6]`) is the byte count of the snapshot. -/
structure FileData where
  bytes : List UInt8
  mtime : Nat
deriving DecidableEq

/-- The handler's environment: filesystem queries (`none` models
`OSError`), the `mimetypes` database, the wall clock, and the interpreter
version reported in the `Server` header. -/
structure World where
  isDir : PyStr → Bool
  isFile : PyStr → Bool
  isLink : PyStr → Bool
  listdir : PyStr → Option (List PyStr)
  openFile : PyStr → Option FileData
  mimeGuess : PyStr → Option PyStr
  now : Nat
  sysVersion : PyStr

/-- The two methods `SimpleHTTPRequestHandler` implements. -/
inductive Method where
  | GET
  | HEAD
deriving DecidableEq

/-- One parsed request as the handler sees it: `self.command`,
`self.path` and `self.headers`. -/
structure Request where
  method : Method
  path : PyStr
  headers : List (PyStr × PyStr)

/-- `name in self.headers` (`email.message.Message.__contains__` is
case-insensitive). -/
def hasHeader (hs : List (PyStr × PyStr)) (name : PyStr) : Bool :=
  hs.any (fun kv => decide (lowerStr kv.1 = lowerStr name))

/-- `self.headers[name]`: first matching header value, case-insensitive. -/
def getHeader (hs : List (PyStr × PyStr)) (name : PyStr) : Option PyStr :=
  (hs.find? (fun kv => decide (lowerStr kv.1 = lowerStr name))).map
    (fun kv => kv.2)

/-- The observable HTTP response: status line fields, headers in emission
order, and the body bytes written after the blank line. -/
structure Response where
  status : Nat
  reason : PyStr
  headers : List (PyStr × PyStr)
  body : List UInt8
deriving DecidableEq

/-- `SimpleHTTPRequestHandler.server_version` (module `__version__` is
`"0.6"`). -/
def serverVersionStr : PyStr := "SimpleHTTP/0.6".data

/-- `BaseHTTPRequestHandler.version_string`. -/
def versionString (w : World) : PyStr := serverVersionStr ++ [' '] ++ w.sysVersion

/-- The `Server` and `Date` headers that `send_response` always emits. -/
def respHeaders (w : World) : List (PyStr × PyStr) :=
  [("Server".data, versionString w), ("Date".data, formatdateGMT w.now)]

/-- Short phrases of `BaseHTTPRequestHandler.responses` (from
`http.HTTPStatus`) for the codes this handler can reach. -/
def responsesShort (code : Nat) : PyStr :=
  if code = 200 then "OK".data
  else if code = 301 then "Moved Permanently".data
  else if code = 304 then "Not Modified".data
  else if code = 404 then "Not Found".data
  else "???".data

/-- Long explanations of `BaseHTTPRequestHandler.responses` for the codes
this handler can reach. -/
def responsesLong (code : Nat) : PyStr :=
  if code = 200 then "Request fulfilled, document follows".data
  else if code = 301 then "Object moved permanently -- see URI list".data
  else if code = 304 then "Document has not changed since given time".data
  else if code = 404 then "Nothing matches the given URI".data
  else "???".data

/-- `http.server.DEFAULT_ERROR_MESSAGE` with its three interpolations
substituted (`%(code)d`, `%(message)s`, `%(explain)s`; the explanation
line renders the code a second time). -/
def errorContent (code : Nat) (message explain : PyStr) : PyStr :=
  "<!DOCTYPE HTML>\n<html lang=\"en\">\n    <head>\n        <meta charset=\"utf-8\">\n        <title>Error response</title>\n    </head>\n    <body>\n        <h1>Error response</h1>\n        <p>Error code: ".data
    ++ natToPyStr code ++ "</p>\n        <p>Message: ".data ++ message
    ++ ".</p>\n        <p>Error code explanation: ".data ++ natToPyStr code
    ++ " - ".data ++ explain ++ ".</p>\n    </body>\n</html>\n".data

/-- `BaseHTTPRequestHandler.send_error`: status line, `Connection: close`,
and — for codes that carry a body — an HTML body built only from the code
and its fixed message/explanation strings; the body bytes are written for
every command except `HEAD`. -/
def send_error (w : World) (method : Method) (code : Nat)
    (message : Option PyStr) : Response :=
  let short := responsesShort code
  let long := responsesLong code
  let msg := message.getD short
  let content := errorContent code (htmlEscape msg) (htmlEscape long)
  let body := encodeUTF8 content
  let hasBody := 200 ≤ code ∧ code ≠ 204 ∧ code ≠ 205 ∧ code ≠ 304
  { status := code
    reason := msg
    headers := respHeaders w ++ [("Connection".data, "close".data)] ++
      (if hasBody then
        [("Content-Type".data, "text/html;charset=utf-8".data),
          ("Content-Length".data, natToPyStr body.length)]
      else [])
    body := if method = Method.HEAD then [] else (if hasBody then body else []) }

/-- `posixpath.splitext` (via `genericpath._splitext`): split at the last
dot after the last separator, unless the basename consists only of dots
up to that point. -/
def splitext (p : PyStr) : PyStr × PyStr :=
  let sepIdx : Int := match rfindChar '/' p with | some i => (i : Int) | none => -1
  let dotIdx : Int := match rfindChar '.' p with | some i => (i : Int) | none => -1
  if sepIdx < dotIdx then
    let fnStart := (sepIdx + 1).toNat
    let mid := (p.drop fnStart).take (dotIdx.toNat - fnStart)
    if mid.any (fun c => c != '.') then (p.take dotIdx.toNat, p.drop dotIdx.toNat)
    else (p, [])
  else (p, [])

/-- `SimpleHTTPRequestHandler.extensions_map` (CPython 3.11). -/
def extensionsMap : List (PyStr × PyStr) :=
  [(".gz", "application/gzip"), (".Z", "application/octet-stream"),
    (".bz2", "application/x-bzip2"),
    (".xz", "application/x-xz")].map (fun p => (p.1.data, p.2.data))

/-- Lookup in `extensions_map`. -/
def lookupExt (ext : PyStr) : Option PyStr :=
  (extensionsMap.find? (fun p => decide (p.1 = ext))).map (fun p => p.2)

/-- `SimpleHTTPRequestHandler.guess_type`: the handler's table, then the
lowercased extension, then the `mimetypes` database, then the
octet-stream fallback. -/
def guessType (w : World) (path : PyStr) : PyStr :=
  let ext := (splitext path).2
  match lookupExt ext with
  | some t => t
  | none =>
    match lookupExt (lowerStr ext) with
    | some t => t
    | none =>
      match w.mimeGuess path with
      | some g => g
      | none => "application/octet-stream".data

/-- Result of `urllib.parse.urlsplit`. -/
structure SplitUrl where
  scheme : PyStr
  netloc : PyStr
  upath : PyStr
  query : PyStr
  fragment : PyStr
deriving DecidableEq

/-- A character allowed in a URL scheme (`urllib.parse.scheme_chars`). -/
def isSchemeChar (c : Char) : Bool :=
  ('a' ≤ c ∧ c ≤ 'z') ∨ ('A' ≤ c ∧ c ≤ 'Z') ∨ ('0' ≤ c ∧ c ≤ '9') ∨
    c = '+' ∨ c = '-' ∨ c = '.'

/-- `urllib.parse.urlsplit` (CPython 3.11), returning path: remove the
WHATWG-unsafe bytes (tab, CR, LF), then split off scheme, netloc,
fragment and query in that order.  CPython can also raise `ValueError`
(mismatched `[`/`]` in the netloc, an invalid bracketed host, or a
non-ASCII netloc that changes under NFKC normalization); such a raise
propagates out of `send_head` uncaught and the server sends no response
at all.  This definition models only the returning behavior;
`urlsplitReturns` below delimits the inputs on which CPython returns,
and every theorem whose code path reaches this function carries it as a
hypothesis. -/
def urlsplit (url0 : PyStr) : SplitUrl :=
  let url1 := url0.filter (fun c => !(c == '\t' || c == '\r' || c == '\n'))
  let schemeSplit : PyStr × PyStr :=
    match findChar ':' url1 with
    | some i =>
      if 0 < i then
        let pre := url1.take i
        match pre.head? with
        | some c0 =>
          if (c0.toNat < 128 ∧ ((c0.isUpper : Bool) ∨ c0.isLower)) ∧
              pre.all isSchemeChar then
            (lowerStr pre, url1.drop (i + 1))
          else ([], url1)
        | none => ([], url1)
      else ([], url1)
    | none => ([], url1)
  let url2 := schemeSplit.2
  let netSplit : PyStr × PyStr :=
    if url2.take 2 = ['/', '/'] then
      let rest := url2.drop 2
      let n := rest.takeWhile (fun c => !(c == '/' || c == '?' || c == '#'))
      (n, rest.drop n.length)
    else ([], url2)
  let url3 := netSplit.2
  let fragSplit : PyStr × PyStr :=
    if '#' ∈ url3 then
      (splitFirst '#' url3, url3.drop ((splitFirst '#' url3).length + 1))
    else (url3, [])
  let url4 := fragSplit.1
  let qSplit : PyStr × PyStr :=
    if '?' ∈ url4 then
      (splitFirst '?' url4, url4.drop ((splitFirst '?' url4).length + 1))
    else (url4, [])
  ⟨schemeSplit.1, netSplit.1, qSplit.1, qSplit.2, fragSplit.2⟩

/-- `urllib.parse.urlunsplit` (CPython 3.11). -/
def urlunsplit (s : SplitUrl) : PyStr :=
  let u0 := s.upath
  let u1 :=
    if s.netloc ≠ [] ∨ (u0 ≠ [] ∧ u0.take 2 = ['/', '/']) then
      let u' := if u0 ≠ [] ∧ u0.take 1 ≠ ['/'] then '/' :: u0 else u0
      '/' :: '/' :: (s.netloc ++ u')
    else u0
  let u2 := if s.scheme ≠ [] then s.scheme ++ ':' :: u1 else u1
  let u3 := if s.query ≠ [] then u2 ++ '?' :: s.query else u2
  if s.fragment ≠ [] then u3 ++ '#' :: s.fragment else u3

/-- All characters ASCII.  On all-ASCII strings the embedded ASCII
`str.lower` and the character-level `unquote` agree exactly with
CPython's full-Unicode versions. -/
def allAscii (s : PyStr) : Bool := s.all (fun c => decide (c.toNat < 128))

/-- Request targets on which CPython's `urlsplit` returns instead of
raising `ValueError`: no bracket anywhere (a `[`/`]` mismatch in the
netloc raises `Invalid IPv6 URL`, and a matched pair routes the host
through `_check_bracketed_host`, which raises unless it is a valid IPv6
or IPvFuture literal), and an all-ASCII netloc (`_checknetloc` raises
for a non-ASCII netloc that changes under NFKC normalization).  Outside
this set the real server raises inside `send_head` and sends no
response, a behavior the total Lean `urlsplit` does not model. -/
def urlsplitReturns (url : PyStr) : Bool :=
  !url.contains '[' && !url.contains ']' && allAscii (urlsplit url).netloc

/-- Python string comparison (`<` on code points, lexicographic). -/
def pyStrLt : PyStr → PyStr → Bool
  | [], [] => false
  | [], _ :: _ => true
  | _ :: _, [] => false
  | a :: as, b :: bs =>
    if a.toNat < b.toNat then true
    else if b.toNat < a.toNat then false
    else pyStrLt as bs

/-- Stable insertion keeping an element before all strictly greater keys
and after equal ones already placed. -/
def insertByLower (x : PyStr) : List PyStr → List PyStr
  | [] => [x]
  | y :: ys =>
    if pyStrLt (lowerStr y) (lowerStr x) then y :: insertByLower x ys
    else x :: y :: ys

/-- `list.sort(key=lambda a: a.lower())`: Python's sort is stable, and a
stable insertion sort over the same key produces the identical list.
The key uses the ASCII `lowerStr`, which coincides with CPython's
full-Unicode `str.lower` exactly on ASCII names; the listing-body
theorem therefore restricts directory entries to `allAscii`. -/
def sortByLower (l : List PyStr) : List PyStr := l.foldr insertByLower []

/-- One `<li>` row of `list_directory`: append `/` to directories (also
in the link target) and `@` to symlinks (display only), percent-quote the
link and HTML-escape the display name. -/
def listRow (w : World) (dirPath name : PyStr) : PyStr :=
  let fullname := osJoin dirPath name
  let slash := w.isDir fullname
  let link := w.isLink fullname
  let displayname := if link then name ++ ['@']
    else if slash then name ++ ['/'] else name
  let linkname := if slash then name ++ ['/'] else name
  "<li><a href=\"".data ++ urlQuote linkname ++ "\">".data ++
    htmlEscape displayname ++ "</a></li>".data

/-- The HTML document `list_directory` generates: the `'\n'.join` of the
fixed header lines (titled with the escaped unquoted request path), one
`<li>` row per sorted entry, and the closing lines. -/
def listingHTML (w : World) (reqPath dirPath : PyStr)
    (entries : List PyStr) : PyStr :=
  let sorted := sortByLower entries
  let displaypath := htmlEscape (unquoteList reqPath)
  let title := "Directory listing for ".data ++ displaypath
  joinSep '\n'
    (["<!DOCTYPE HTML>".data, "<html lang=\"en\">".data, "<head>".data,
      "<meta charset=\"utf-8\">".data,
      "<title>".data ++ title ++ "</title>\n</head>".data,
      "<body>\n<h1>".data ++ title ++ "</h1>".data,
      "<hr>\n<ul>".data] ++ sorted.map (listRow w dirPath) ++
      ["</ul>\n<hr>\n</body>\n</html>\n".data])

/-- `SimpleHTTPRequestHandler.list_directory`: `os.listdir` failure is a
404 (`"No permission to list directory"`); otherwise a 200 whose body is
the generated HTML index of the entries sorted by lowercased name.
Returns the headers-response and the bytes the caller may copy. -/
def list_directory (w : World) (method : Method) (reqPath dirPath : PyStr) :
    Response × Option (List UInt8) :=
  match w.listdir dirPath with
  | none =>
    (send_error w method 404 (some "No permission to list directory".data),
      none)
  | some entries =>
    let encoded := encodeUTF8 (listingHTML w reqPath dirPath entries)
    ({ status := 200, reason := responsesShort 200,
       headers := respHeaders w ++
         [("Content-type".data, "text/html; charset=utf-8".data),
           ("Content-Length".data, natToPyStr encoded.length)],
       body := [] }, some encoded)

/-- Tail of `send_head` shared by the plain-file and index-file paths:
content type, the Issue-17324 trailing-slash 404, `open`, the
`If-Modified-Since` check, and the 200 header block. -/
def sendFileHead (w : World) (req : Request) (path : PyStr) :
    Response × Option (List UInt8) :=
  let ctype := guessType w path
  if pyEndsWith '/' path then
    (send_error w req.method 404 (some "File not found".data), none)
  else
    match w.openFile path with
    | none => (send_error w req.method 404 (some "File not found".data), none)
    | some fd =>
      let ims :=
        if hasHeader req.headers "If-Modified-Since".data &&
            !hasHeader req.headers "If-None-Match".data then
          match getHeader req.headers "If-Modified-Since".data with
          | some v => ims304 fd.mtime v
          | none => false
        else false
      if ims then
        ({ status := 304, reason := responsesShort 304,
           headers := respHeaders w, body := [] }, none)
      else
        ({ status := 200, reason := responsesShort 200,
           headers := respHeaders w ++
             [("Content-type".data, ctype),
               ("Content-Length".data, natToPyStr fd.bytes.length),
               ("Last-Modified".data, formatdateGMT fd.mtime)],
           body := [] }, some fd.bytes)

/-- `SimpleHTTPRequestHandler.send_head` (CPython 3.11). -/
def send_head (w : World) (docRoot : PyStr) (req : Request) :
    Response × Option (List UInt8) :=
  let path0 := translate_path docRoot req.path
  if w.isDir path0 then
    let parts := urlsplit req.path
    if !pyEndsWith '/' parts.upath then
      let newUrl := urlunsplit { parts with upath := parts.upath ++ ['/'] }
      ({ status := 301, reason := responsesShort 301,
         headers := respHeaders w ++
           [("Location".data, newUrl), ("Content-Length".data, "0".data)],
         body := [] }, none)
    else
      let idxHtml := osJoin path0 "index.html".data
      let idxHtm := osJoin path0 "index.htm".data
      if w.isFile idxHtml then sendFileHead w req idxHtml
      else if w.isFile idxHtm then sendFileHead w req idxHtm
      else list_directory w req.method req.path path0
  else sendFileHead w req path0

/-- `do_GET`: `send_head`, then `copyfile` streams the returned file into
the body. -/
def doGET (w : World) (docRoot path : PyStr)
    (headers : List (PyStr × PyStr)) : Response :=
  let r := send_head w docRoot ⟨Method.GET, path, headers⟩
  { r.1 with body := r.1.body ++ r.2.getD [] }

/-- `do_HEAD`: `send_head` only; the returned file object is closed
without being copied. -/
def doHEAD (w : World) (docRoot path : PyStr)
    (headers : List (PyStr × PyStr)) : Response :=
  (send_head w docRoot ⟨Method.HEAD, path, headers⟩).1

/-- How `process_request` schedules the handling of one accepted
connection.  `socketserver.BaseServer.process_request` calls
`finish_request` (the complete HTTP exchange) synchronously on the
accepting thread; `ThreadingMixIn` overrides it to start a new thread,
`ForkingMixIn` to fork a child process. -/
inductive Dispatch where
  | synchronous
  | newThread
  | newProcess
deriving DecidableEq

/-- `socketserver.BaseServer.process_request`. -/
def baseServerDispatch : Dispatch := Dispatch.synchronous

/-- `socketserver.ThreadingMixIn.process_request`. -/
def threadingMixInDispatch : Dispatch := Dispatch.newThread

/-- `http.server.HTTPServer` derives from `socketserver.TCPServer` and
overrides neither `process_request` nor `serve_forever`. -/
def httpServerDispatch : Dispatch := baseServerDispatch

/-- Line 4 of `run_server.py` instantiates plain `HTTPServer` (not
`ThreadingHTTPServer`). -/
def scriptDispatch : Dispatch := httpServerDispatch

/-- Observable event of the accept/handle loop. -/
inductive ServerEvent where
  | accepted (c : Nat)
  | handled (c : Nat)
deriving DecidableEq

/-- `BaseServer.serve_forever` with the synchronous `process_request`:
each iteration accepts one ready connection (`get_request`) and runs
`finish_request` to completion before the loop returns to the selector
to accept the next one. -/
def serveForeverTrace : List Nat → List ServerEvent
  | [] => []
  | c :: cs =>
    ServerEvent.accepted c :: ServerEvent.handled c :: serveForeverTrace cs

/-- `ssl.CERT_NONE` / `CERT_OPTIONAL` / `CERT_REQUIRED`. -/
inductive CertReqs where
  | CERT_NONE
  | CERT_OPTIONAL
  | CERT_REQUIRED
deriving DecidableEq

/-- Keyword parameters of `ssl.wrap_socket` with their declared defaults
(`ssl.py`: `cert_reqs=CERT_NONE`, `do_handshake_on_connect=True`, …). -/
structure WrapSocketArgs where
  keyfile : Option PyStr := none
  certfile : Option PyStr := none
  server_side : Bool := false
  cert_reqs : CertReqs := CertReqs.CERT_NONE
  ca_certs : Option PyStr := none
  do_handshake_on_connect : Bool := true
  suppress_ragged_eofs : Bool := true
deriving DecidableEq

/-- The argument list of lines 5–8 of `run_server.py`: `keyfile`,
`certfile` and `server_side` only; every other parameter keeps its
default. -/
def scriptWrapArgs : WrapSocketArgs :=
  { keyfile := some "./localhost-key.pem".data
    certfile := some "./localhost.pem".data
    server_side := true }

/-- A listening socket as the script observes it: whether it is an
`SSLSocket`, the context's `verify_mode`, and the
`do_handshake_on_connect` flag new connections inherit. -/
structure Sock where
  tlsWrapped : Bool
  verifyMode : CertReqs
  doHandshakeOnConnect : Bool
deriving DecidableEq

/-- The plain TCP socket `HTTPServer.__init__` binds and listens on. -/
def plainServerSocket : Sock :=
  { tlsWrapped := false, verifyMode := CertReqs.CERT_NONE,
    doHandshakeOnConnect := false }

/-- `ssl.wrap_socket`: build an `SSLContext`, set
`context.verify_mode = cert_reqs`, load the certificate chain, and wrap
the socket keeping `do_handshake_on_connect`. -/
def sslWrapSocket (_sock : Sock) (args : WrapSocketArgs) : Sock :=
  { tlsWrapped := true
    verifyMode := args.cert_reqs
    doHandshakeOnConnect := args.do_handshake_on_connect }

/-- The socket stored back into `httpd.socket` by line 5, before line 10
enters `serve_forever`. -/
def scriptServeSocket : Sock := sslWrapSocket plainServerSocket scriptWrapArgs

/-- One accepted connection: whether its transport is TLS, and whether
the TLS handshake completes before any application byte is exchanged
(`SSLSocket.accept` wraps the accepted socket with the listener's
context and `do_handshake_on_connect`). -/
structure Conn where
  id : Nat
  tls : Bool
  handshakeFirst : Bool
deriving DecidableEq

/-- The connections `serve_forever` accepts: `get_request` calls
`self.socket.accept()`, so every connection carries the transport of the
single installed listening socket. -/
def serveForeverConns (s : Sock) (ids : List Nat) : List Conn :=
  ids.map (fun i =>
    { id := i, tls := s.tlsWrapped,
      handshakeFirst := s.tlsWrapped && s.doHandshakeOnConnect })

/-- Whether the server asks the connecting client for a certificate
during the handshake: only when the context's `verify_mode` differs from
`CERT_NONE` ("no certificates from the other side are required (or will
be looked at if provided)"). -/
def requestsClientCert (s : Sock) : Bool :=
  decide (s.verifyMode ≠ CertReqs.CERT_NONE)

/-- Environment conditions the script's startup depends on. -/
structure StartupEnv where
  bindFails : Bool
  certfileReadable : Bool
  keyfileReadable : Bool
deriving DecidableEq

/-- Outcome of running the script's statements in order. -/
inductive ScriptOutcome where
  | crashed (exitCode : Nat) (message : PyStr) (requestsServed : Nat)
  | serving (sock : Sock)
deriving DecidableEq

/-- Message of the `OSError` raised by `server_bind` when the port is
taken. -/
def bindErrorMessage : PyStr := "[Errno 98] Address already in use".data

/-- Message of the `FileNotFoundError` raised by
`SSLContext.load_cert_chain` when a certificate or key file is missing
or unreadable. -/
def certErrorMessage : PyStr := "[Errno 2] No such file or directory".data

/-- `run_server.py`, statement by statement: line 4 constructs the server
(bind + listen), lines 5–8 wrap the socket, loading the certificate/key
pair, line 10 enters `serve_forever`.  An exception in any statement
propagates uncaught; CPython then prints the traceback (naming the
exception and its message) to stderr and terminates the process with
exit status 1 — before `serve_forever` is ever entered, so zero requests
have been served. -/
def runScript (env : StartupEnv) : ScriptOutcome :=
  if env.bindFails then ScriptOutcome.crashed 1 bindErrorMessage 0
  else if !env.certfileReadable || !env.keyfileReadable then
    ScriptOutcome.crashed 1 certErrorMessage 0
  else ScriptOutcome.serving scriptServeSocket

/-- Host component of the address tuple on line 4. -/
def scriptBindHost : PyStr := "localhost".data

/-- Port component of the address tuple on line 4. -/
def scriptBindPort : Nat := 4443

/-- `SimpleHTTPRequestHandler.__init__`: `if directory is None:
directory = os.getcwd()`. -/
def handlerDirectory (cwd : PyStr) (directory : Option PyStr) : PyStr :=
  match directory with
  | none => cwd
  | some d => d

/-- The script registers the `SimpleHTTPRequestHandler` class itself (no
`functools.partial`), so every handler gets `directory=None` and serves
the process's current working directory. -/
def scriptDocumentRoot (cwd : PyStr) : PyStr := handlerDirectory cwd none

/-- The byte-for-byte body of every `404 File not found` error page: the
template filled with the code `404`, the fixed message `File not found`
and the fixed table explanation — a closed constant with no dependence
on the request path, the resolved filesystem path, or the `OSError`. -/
def notFoundBody : List UInt8 :=
  encodeUTF8 (errorContent 404 "File not found".data
    "Nothing matches the given URI".data)

/-- Concrete world used by the claim witnesses and counterexamples:
document root `/srv` containing only the regular file `hello.txt` with
bytes `hi` and modification time 0, no index files, no symlinks, an
empty `mimetypes` database, clock at the epoch. -/
def wOneFile : World :=
  { isDir := fun p => decide (p = "/srv".data ∨ p = "/srv/".data)
    isFile := fun _ => false
    isLink := fun _ => false
    listdir := fun p => if p = "/srv/".data then some [] else none
    openFile := fun p =>
      if p = "/srv/hello.txt".data then some ⟨[104, 105], 0⟩ else none
    mimeGuess := fun _ => none
    now := 0
    sysVersion := "Python/3.11.6".data }

-- Every field produced by `pySplit` is free of the separator.
theorem pySplit_not_mem (sep : Char) (s : PyStr) :
    ∀ w ∈ pySplit sep s, sep ∉ w := by
  induction s with
  | nil =>
    intro w hw
    simp only [pySplit, List.mem_singleton] at hw
    simp [hw]
  | cons c cs ih =>
    intro w hw
    simp only [pySplit] at hw
    split at hw
    · simp only [List.mem_singleton] at hw
      simp [hw]
    · next w0 ws0 heq =>
      split at hw
      · next hc =>
        rcases List.mem_cons.mp hw with hw | hw
        · simp [hw]
        · exact ih w (by rw [heq]; exact hw)
      · next hc =>
        rcases List.mem_cons.mp hw with hw | hw
        · subst hw
          intro hmem
          rcases List.mem_cons.mp hmem with h | h
          · exact hc (by simp [h])
          · exact ih w0 (by rw [heq]; exact List.mem_cons_self w0 ws0) h
        · exact ih w (by rw [heq]; exact List.mem_cons_of_mem w0 hw)

-- The translate loop equals a plain join-fold over the kept words.
theorem tpLoop_eq_joinAll (words : List PyStr) (directory : PyStr) :
    words.foldl tpStep directory =
      joinAll directory (words.filter (fun w =>
        decide (¬ (osDirname w ≠ [] ∨ w = ['.'] ∨ w = ['.', '.'])))) := by
  induction words generalizing directory with
  | nil => rfl
  | cons w ws ih =>
    simp only [List.foldl_cons, tpStep, List.filter_cons]
    by_cases h : osDirname w ≠ [] ∨ w = ['.'] ∨ w = ['.', '.']
    · rw [if_pos h, if_neg (by simp only [decide_eq_true_eq, not_not]; exact h)]
      exact ih directory
    · rw [if_neg h, if_pos (by simp only [decide_eq_true_eq]; exact h)]
      simpa [joinAll] using ih (osJoin directory w)

-- Joining simple components only ever extends the root on the right.
theorem joinAll_extends (ws : List PyStr) (directory : PyStr)
    (h : ∀ w ∈ ws, w ≠ [] ∧ '/' ∉ w) :
    ∃ t, joinAll directory ws = directory ++ t := by
  induction ws generalizing directory with
  | nil => exact ⟨[], by simp [joinAll]⟩
  | cons w ws ih =>
    obtain ⟨hne, hsl⟩ := h w (List.mem_cons_self w ws)
    have hstep : ∃ t0, osJoin directory w = directory ++ t0 := by
      unfold osJoin
      have hhead : w.head? ≠ some '/' := by
        cases w with
        | nil => simp
        | cons a as =>
          simp only [List.head?, ne_eq, Option.some.injEq]
          intro ha
          exact hsl (ha ▸ List.mem_cons_self a as)
      rw [if_neg (by simpa using hhead)]
      by_cases hd : directory = [] ∨ directory.getLast? = some '/'
      · exact ⟨w, by rw [if_pos hd]⟩
      · exact ⟨'/' :: w, by rw [if_neg hd]⟩
    obtain ⟨t0, ht0⟩ := hstep
    obtain ⟨t1, ht1⟩ := ih (osJoin directory w)
      (fun x hx => h x (List.mem_cons_of_mem w hx))
    exact ⟨t0 ++ t1, by
      simp only [joinAll, List.foldl_cons] at ht1 ⊢
      rw [ht1, ht0, List.append_assoc]⟩

/-- C1: for every request path — in particular paths containing any number
of `..` segments — `translate_path` returns the document root extended by
simple path components only (never `.`, `..`, or anything containing a
separator), possibly with a trailing slash; hence the resolved filesystem
path always stays at or below the document root and no request is resolved
outside it. -/
theorem c1_translate_path_stays_in_root (directory reqPath : PyStr) :
    ∃ ws : List PyStr,
      (∀ w ∈ ws, simpleComponent w) ∧
      (translate_path directory reqPath = joinAll directory ws ∨
        translate_path directory reqPath = joinAll directory ws ++ ['/']) ∧
      ∃ t, translate_path directory reqPath = directory ++ t ∨
        translate_path directory reqPath = directory ++ t ++ ['/'] := by
  unfold translate_path
  set p2 := splitFirst '#' (splitFirst '?' reqPath) with hp2
  set p4 := posixNormpath (unquoteList p2) with hp4
  set words := (pySplit '/' p4).filter (fun w => decide (w ≠ [])) with hwords
  set ws := words.filter (fun w =>
    decide (¬ (osDirname w ≠ [] ∨ w = ['.'] ∨ w = ['.', '.']))) with hws
  have hmem : ∀ w ∈ ws, simpleComponent w := by
    intro w hw
    rw [hws] at hw
    have h1 := List.mem_filter.mp hw
    have h2 := List.mem_filter.mp h1.1
    have hne : w ≠ [] := of_decide_eq_true h2.2
    have hkeep : ¬ (osDirname w ≠ [] ∨ w = ['.'] ∨ w = ['.', '.']) :=
      of_decide_eq_true h1.2
    exact ⟨hne, pySplit_not_mem '/' p4 w h2.1,
      fun h => hkeep (Or.inr (Or.inl h)), fun h => hkeep (Or.inr (Or.inr h))⟩
  have hfold : words.foldl tpStep directory = joinAll directory ws := by
    rw [hws]; exact tpLoop_eq_joinAll words directory
  refine ⟨ws, hmem, ?_, ?_⟩
  · by_cases ht : pyEndsWith '/' (pyRstrip p2) = true
    · right; rw [if_pos ht, hfold]
    · left; rw [if_neg ht, hfold]
  · obtain ⟨t, hjt⟩ := joinAll_extends ws directory
      (fun w hw => ⟨(hmem w hw).1, (hmem w hw).2.1⟩)
    refine ⟨t, ?_⟩
    by_cases ht : pyEndsWith '/' (pyRstrip p2) = true
    · right; rw [if_pos ht, hfold, hjt]
    · left; rw [if_neg ht, hfold, hjt]

/-- C3 counterexample: the claim that every accepted connection is
handled on its own independently scheduled concurrent execution unit
(never single-threaded) is false for this program.  The script's server
class uses the synchronous base-class `process_request`, and with two
incoming connections the second is accepted only after the first has
been handled to completion. -/
theorem c3_counterexample :
    scriptDispatch = Dispatch.synchronous ∧
    serveForeverTrace [0, 1] =
      [ServerEvent.accepted 0, ServerEvent.handled 0,
        ServerEvent.accepted 1, ServerEvent.handled 1] :=
  ⟨rfl, rfl⟩

/-- C3 (amended): connection handling is strictly sequential on the
single accepting thread — the dispatch mode of the script's server is
the synchronous one, and in the serve loop every connection is accepted
and fully handled before any later connection is accepted, so one
client's blocking handshake or file transfer stalls all later clients. -/
theorem c3_sequential_handling :
    scriptDispatch = Dispatch.synchronous ∧
    ∀ (pre post : List Nat) (c : Nat),
      serveForeverTrace (pre ++ c :: post) =
        serveForeverTrace pre ++
          ServerEvent.accepted c :: ServerEvent.handled c ::
            serveForeverTrace post := by
  refine ⟨rfl, ?_⟩
  intro pre post c
  induction pre with
  | nil => rfl
  | cons p ps ih =>
    have hstep : (p :: ps) ++ c :: post = p :: (ps ++ c :: post) := rfl
    rw [hstep]
    simp only [serveForeverTrace, ih, List.cons_append]

/-- C7: the script binds exactly to host `localhost` and port `4443`,
serves with the current working directory as document root, and loads
the static key/certificate pair from `./localhost-key.pem` and
`./localhost.pem`.  The script is straight-line: after a successful
startup the serving state is the constant `scriptServeSocket` built from
exactly these values, and nothing in the serve loop ever rebinds or
reloads them. -/
theorem c7_script_configuration (cwd : PyStr) :
    scriptBindHost = "localhost".data ∧
    scriptBindPort = 4443 ∧
    scriptDocumentRoot cwd = cwd ∧
    scriptWrapArgs.keyfile = some "./localhost-key.pem".data ∧
    scriptWrapArgs.certfile = some "./localhost.pem".data ∧
    runScript ⟨false, true, true⟩ = ScriptOutcome.serving scriptServeSocket :=
  ⟨rfl, rfl, rfl, rfl, rfl, rfl⟩

/-- C8: if the bind fails or the certificate or key file is missing or
unreadable, the process terminates before serving any request, with exit
status 1 and a nonempty descriptive error message. -/
theorem c8_startup_failure_exits_one (env : StartupEnv)
    (h : env.bindFails = true ∨ env.certfileReadable = false ∨
      env.keyfileReadable = false) :
    ∃ msg, runScript env = ScriptOutcome.crashed 1 msg 0 ∧ msg ≠ [] := by
  unfold runScript
  by_cases hb : env.bindFails
  · exact ⟨bindErrorMessage, by rw [if_pos hb], by decide⟩
  · have hck : (!env.certfileReadable || !env.keyfileReadable) = true := by
      rcases h with h | h | h
      · exact absurd h hb
      · simp [h]
      · simp [h]
    exact ⟨certErrorMessage, by rw [if_neg hb, if_pos hck], by decide⟩

/-- C8 witness: a concrete startup environment with a missing
certificate file crashes with exit status 1 before serving anything. -/
theorem c8_startup_failure_exits_one_witness :
    ∃ msg, runScript ⟨false, false, true⟩ =
      ScriptOutcome.crashed 1 msg 0 ∧ msg ≠ [] :=
  c8_startup_failure_exits_one ⟨false, false, true⟩ (Or.inr (Or.inl rfl))

/-- C9: line 5 replaces `httpd.socket` by its TLS-wrapped version before
line 10 enters `serve_forever`, so any successfully started server
serves on a TLS socket, and every connection it ever accepts is a TLS
connection whose handshake completes before any HTTP byte is exchanged
— no plaintext HTTP exchange is possible. -/
theorem c9_all_connections_tls :
    (∀ (env : StartupEnv) (sock : Sock),
      runScript env = ScriptOutcome.serving sock → sock.tlsWrapped = true) ∧
    (∀ (ids : List Nat) (c : Conn), c ∈ serveForeverConns scriptServeSocket ids →
      c.tls = true ∧ c.handshakeFirst = true) := by
  constructor
  · intro env sock h
    unfold runScript at h
    by_cases hb : env.bindFails
    · rw [if_pos hb] at h; cases h
    · rw [if_neg hb] at h
      by_cases hc : (!env.certfileReadable || !env.keyfileReadable) = true
      · rw [if_pos hc] at h; cases h
      · rw [if_neg hc] at h
        cases h
        rfl
  · intro ids c hc
    unfold serveForeverConns at hc
    obtain ⟨i, _, hi⟩ := List.mem_map.mp hc
    cases hi
    exact ⟨rfl, rfl⟩

/-- C9 witness: the clean startup serves on a TLS-wrapped socket, and the
concrete connection accepted from it is TLS with its handshake first. -/
theorem c9_all_connections_tls_witness :
    scriptServeSocket.tlsWrapped = true ∧
    (Conn.mk 7 true true).tls = true ∧
    (Conn.mk 7 true true).handshakeFirst = true :=
  ⟨c9_all_connections_tls.1 ⟨false, true, true⟩ scriptServeSocket rfl,
    c9_all_connections_tls.2 [7] (Conn.mk 7 true true) (by decide)⟩

/-- C10: the `ssl.wrap_socket` call passes no `cert_reqs`, so the
declared default `CERT_NONE` applies: the serving socket's context has
`verify_mode = CERT_NONE` and the server never requests (hence never
verifies) a client certificate during any handshake. -/
theorem c10_no_client_cert_verification :
    scriptWrapArgs.cert_reqs = CertReqs.CERT_NONE ∧
    scriptServeSocket.verifyMode = CertReqs.CERT_NONE ∧
    requestsClientCert scriptServeSocket = false :=
  ⟨rfl, rfl, rfl⟩

-- `send_head` reduces to the shared file tail when the resolved path is
-- not a directory.
theorem send_head_not_dir (w : World) (docRoot : PyStr) (req : Request)
    (hdir : w.isDir (translate_path docRoot req.path) = false) :
    send_head w docRoot req =
      sendFileHead w req (translate_path docRoot req.path) := by
  simp only [send_head, hdir, Bool.false_eq_true, if_false]

-- The file tail on a missing file: the fixed `File not found` 404.
theorem sendFileHead_notfound (w : World) (req : Request) (path : PyStr)
    (hopen : w.openFile path = none) :
    sendFileHead w req path =
      (send_error w req.method 404 (some "File not found".data), none) := by
  simp only [sendFileHead, hopen]
  cases hsl : pyEndsWith '/' path
  · simp only [Bool.false_eq_true, if_false]
  · simp only [if_true]

-- The file tail on an unconditional request for an existing file: the
-- 200 header block and the file bytes for the caller to copy.
theorem sendFileHead_ok (w : World) (req : Request) (path : PyStr)
    (fd : FileData)
    (hnoslash : pyEndsWith '/' path = false)
    (hopen : w.openFile path = some fd)
    (hims : hasHeader req.headers "If-Modified-Since".data = false) :
    sendFileHead w req path =
      ({ status := 200, reason := responsesShort 200,
         headers := respHeaders w ++
           [("Content-type".data, guessType w path),
             ("Content-Length".data, natToPyStr fd.bytes.length),
             ("Last-Modified".data, formatdateGMT fd.mtime)],
         body := [] }, some fd.bytes) := by
  simp only [sendFileHead, hnoslash, Bool.false_eq_true, if_false, hopen,
    hims, Bool.false_and, if_false]

-- `list_directory` when `os.listdir` succeeds.
theorem list_directory_some (w : World) (m : Method) (reqPath dirPath : PyStr)
    (es : List PyStr) (hls : w.listdir dirPath = some es) :
    list_directory w m reqPath dirPath =
      ({ status := 200, reason := responsesShort 200,
         headers := respHeaders w ++
           [("Content-type".data, "text/html; charset=utf-8".data),
             ("Content-Length".data,
               natToPyStr (encodeUTF8 (listingHTML w reqPath dirPath es)).length)],
         body := [] },
        some (encodeUTF8 (listingHTML w reqPath dirPath es))) := by
  simp only [list_directory, hls]

-- `list_directory` when `os.listdir` raises.
theorem list_directory_none (w : World) (m : Method) (reqPath dirPath : PyStr)
    (hls : w.listdir dirPath = none) :
    list_directory w m reqPath dirPath =
      (send_error w m 404 (some "No permission to list directory".data),
        none) := by
  simp only [list_directory, hls]

-- `send_head` on a directory with a trailing-slash URL path and no index
-- file falls through to `list_directory`.
theorem send_head_dir_no_index (w : World) (docRoot : PyStr) (req : Request)
    (hdir : w.isDir (translate_path docRoot req.path) = true)
    (hslash : pyEndsWith '/' (urlsplit req.path).upath = true)
    (hih : w.isFile
      (osJoin (translate_path docRoot req.path) "index.html".data) = false)
    (hihm : w.isFile
      (osJoin (translate_path docRoot req.path) "index.htm".data) = false) :
    send_head w docRoot req =
      list_directory w req.method req.path (translate_path docRoot req.path) := by
  simp only [send_head, hdir, if_true, hslash, Bool.not_true,
    Bool.false_eq_true, if_false, hih, hihm]

-- `send_head` on a directory with a trailing-slash URL path serves
-- `index.html` when it is a regular file.
theorem send_head_dir_index (w : World) (docRoot : PyStr) (req : Request)
    (hdir : w.isDir (translate_path docRoot req.path) = true)
    (hslash : pyEndsWith '/' (urlsplit req.path).upath = true)
    (hih : w.isFile
      (osJoin (translate_path docRoot req.path) "index.html".data) = true) :
    send_head w docRoot req =
      sendFileHead w req
        (osJoin (translate_path docRoot req.path) "index.html".data) := by
  simp only [send_head, hdir, if_true, hslash, Bool.not_true,
    Bool.false_eq_true, if_false, hih]

-- Joining a nonempty component never changes the final character away
-- from the component's own final character.
theorem osJoin_getLast (a b : PyStr) (hb : b ≠ []) :
    (osJoin a b).getLast? = b.getLast? := by
  unfold osJoin
  by_cases h1 : b.head? == some '/'
  · rw [if_pos h1]
  · rw [if_neg h1]
    by_cases h2 : a = [] ∨ a.getLast? = some '/'
    · rw [if_pos h2]
      exact List.getLast?_append_of_ne_nil a hb
    · rw [if_neg h2]
      rw [List.append_cons]
      exact List.getLast?_append_of_ne_nil _ hb

-- An index path ends in `l`, never in a slash.
theorem index_html_no_trailing_slash (p : PyStr) :
    pyEndsWith '/' (osJoin p "index.html".data) = false := by
  unfold pyEndsWith
  rw [osJoin_getLast p _ (by decide)]
  decide

/-- C6: for every GET whose resolved path is not a directory and cannot
be opened (nonexistent file), the response status is 404 and the body is
the closed constant `notFoundBody`, built only from the code 404, the
fixed message `File not found` and the fixed table explanation — so the
body is independent of the request path, the resolved path, and the
`OSError`, and can contain no filesystem error details. -/
theorem c6_get_nonexistent_404 (w : World) (docRoot reqPath : PyStr)
    (hs : List (PyStr × PyStr))
    (hdir : w.isDir (translate_path docRoot reqPath) = false)
    (hopen : w.openFile (translate_path docRoot reqPath) = none) :
    (doGET w docRoot reqPath hs).status = 404 ∧
    (doGET w docRoot reqPath hs).body = notFoundBody := by
  have h1 := send_head_not_dir w docRoot ⟨Method.GET, reqPath, hs⟩ hdir
  have h2 := sendFileHead_notfound w ⟨Method.GET, reqPath, hs⟩ _ hopen
  simp only [doGET, h1, h2]
  refine ⟨rfl, ?_⟩
  have hb : (send_error w Method.GET 404 (some "File not found".data)).body =
      notFoundBody := rfl
  simp only [Option.getD_none, List.append_nil, hb]

/-- C6 witness: in the concrete one-file world, `GET /missing` resolves
to `/srv/missing`, which is no directory and does not open; the response
is the 404 with the fixed body. -/
theorem c6_get_nonexistent_404_witness :
    (doGET wOneFile "/srv".data "/missing".data []).status = 404 ∧
    (doGET wOneFile "/srv".data "/missing".data []).body = notFoundBody :=
  c6_get_nonexistent_404 wOneFile "/srv".data "/missing".data []
    (by decide) (by decide)

/-- C4 counterexample: the claim "every GET whose path resolves to an
existing regular file gets status 200 with the file's bytes" is false as
stated.  In the concrete world, `/hello.txt` resolves to the existing
regular file `/srv/hello.txt` (mtime 0), but a GET carrying
`If-Modified-Since: Thu, 01 Jan 1970 00:00:00 GMT` receives 304 with an
empty body instead of 200 with the two file bytes. -/
theorem c4_counterexample :
    wOneFile.isDir (translate_path "/srv".data "/hello.txt".data) = false ∧
    wOneFile.openFile (translate_path "/srv".data "/hello.txt".data) =
      some ⟨[104, 105], 0⟩ ∧
    (doGET wOneFile "/srv".data "/hello.txt".data
      [("If-Modified-Since".data,
        "Thu, 01 Jan 1970 00:00:00 GMT".data)]).status = 304 ∧
    ¬ (doGET wOneFile "/srv".data "/hello.txt".data
      [("If-Modified-Since".data,
        "Thu, 01 Jan 1970 00:00:00 GMT".data)]).status = 200 ∧
    (doGET wOneFile "/srv".data "/hello.txt".data
      [("If-Modified-Since".data,
        "Thu, 01 Jan 1970 00:00:00 GMT".data)]).body = [] := by
  decide

/-- C4 (amended): for every GET request that carries no
`If-Modified-Since` header, if the path resolves to an existing regular
file (not a directory, no trailing slash, and the open succeeds), the
response has status 200, a body byte-for-byte equal to the file's
contents, and a `Content-Length` header equal to the decimal byte count.
(A conditional GET may instead receive 304 with an empty body.) -/
theorem c4_unconditional_get_file_200 (w : World) (docRoot reqPath : PyStr)
    (hs : List (PyStr × PyStr)) (fd : FileData)
    (hdir : w.isDir (translate_path docRoot reqPath) = false)
    (hnoslash : pyEndsWith '/' (translate_path docRoot reqPath) = false)
    (hopen : w.openFile (translate_path docRoot reqPath) = some fd)
    (hims : hasHeader hs "If-Modified-Since".data = false) :
    (doGET w docRoot reqPath hs).status = 200 ∧
    (doGET w docRoot reqPath hs).body = fd.bytes ∧
    ("Content-Length".data, natToPyStr fd.bytes.length) ∈
      (doGET w docRoot reqPath hs).headers := by
  have h1 := send_head_not_dir w docRoot ⟨Method.GET, reqPath, hs⟩ hdir
  have h2 := sendFileHead_ok w ⟨Method.GET, reqPath, hs⟩ _ fd hnoslash hopen hims
  refine ⟨?_, ?_, ?_⟩ <;> simp [doGET, h1, h2, List.mem_append]

/-- C4 witness: an unconditional `GET /hello.txt` in the concrete world
is a 200 whose body is the file's two bytes with `Content-Length: 2`. -/
theorem c4_unconditional_get_file_200_witness :
    (doGET wOneFile "/srv".data "/hello.txt".data []).status = 200 ∧
    (doGET wOneFile "/srv".data "/hello.txt".data []).body = [104, 105] ∧
    ("Content-Length".data, natToPyStr 2) ∈
      (doGET wOneFile "/srv".data "/hello.txt".data []).headers :=
  c4_unconditional_get_file_200 wOneFile "/srv".data "/hello.txt".data []
    ⟨[104, 105], 0⟩ (by decide) (by decide) (by decide) (by decide)

-- On an existing regular file the method never matters: `send_error` is
-- unreachable and nothing else in the file tail reads `req.method`.
theorem sendFileHead_method_free (w : World) (reqPath : PyStr)
    (hs : List (PyStr × PyStr)) (path : PyStr) (fd : FileData)
    (hnoslash : pyEndsWith '/' path = false)
    (hopen : w.openFile path = some fd) :
    sendFileHead w ⟨Method.HEAD, reqPath, hs⟩ path =
      sendFileHead w ⟨Method.GET, reqPath, hs⟩ path := by
  simp only [sendFileHead, hnoslash, Bool.false_eq_true, if_false, hopen]

-- On an existing regular file the headers part of `send_head` carries no
-- body bytes, whether the outcome is the 304 or the 200.
theorem sendFileHead_fst_body_empty (w : World) (req : Request)
    (path : PyStr) (fd : FileData)
    (hnoslash : pyEndsWith '/' path = false)
    (hopen : w.openFile path = some fd) :
    (sendFileHead w req path).1.body = [] := by
  simp only [sendFileHead, hnoslash, Bool.false_eq_true, if_false, hopen]
  split
  · split <;> rfl
  · rfl

-- In the 304 outcome `send_head` hands the caller no file to copy, so
-- the GET body is empty exactly like the HEAD body.
theorem sendFileHead_304_no_file (w : World) (req : Request)
    (path : PyStr) (fd : FileData)
    (hnoslash : pyEndsWith '/' path = false)
    (hopen : w.openFile path = some fd)
    (h304 : (sendFileHead w req path).1.status = 304) :
    (sendFileHead w req path).2 = none := by
  revert h304
  simp only [sendFileHead, hnoslash, Bool.false_eq_true, if_false, hopen]
  split
  · split
    · intro _; rfl
    · intro h; exact ((by decide : ¬ (200 = 304)) h).elim
  · intro h; exact ((by decide : ¬ (200 = 304)) h).elim

/-- C5 counterexample: the claim "a HEAD for a path resolving to an
existing regular file returns status 200" is false as stated: both the
HEAD and the GET for the existing `/hello.txt` carrying
`If-Modified-Since: Thu, 01 Jan 1970 00:00:00 GMT` receive a shared 304
— not 200 — with identical headers and empty bodies. -/
theorem c5_counterexample :
    wOneFile.openFile (translate_path "/srv".data "/hello.txt".data) =
      some ⟨[104, 105], 0⟩ ∧
    (doHEAD wOneFile "/srv".data "/hello.txt".data
      [("If-Modified-Since".data,
        "Thu, 01 Jan 1970 00:00:00 GMT".data)]).status = 304 ∧
    ¬ (doHEAD wOneFile "/srv".data "/hello.txt".data
      [("If-Modified-Since".data,
        "Thu, 01 Jan 1970 00:00:00 GMT".data)]).status = 200 ∧
    (doHEAD wOneFile "/srv".data "/hello.txt".data
      [("If-Modified-Since".data,
        "Thu, 01 Jan 1970 00:00:00 GMT".data)]).status =
      (doGET wOneFile "/srv".data "/hello.txt".data
        [("If-Modified-Since".data,
          "Thu, 01 Jan 1970 00:00:00 GMT".data)]).status ∧
    (doHEAD wOneFile "/srv".data "/hello.txt".data
      [("If-Modified-Since".data,
        "Thu, 01 Jan 1970 00:00:00 GMT".data)]).headers =
      (doGET wOneFile "/srv".data "/hello.txt".data
        [("If-Modified-Since".data,
          "Thu, 01 Jan 1970 00:00:00 GMT".data)]).headers ∧
    (doHEAD wOneFile "/srv".data "/hello.txt".data
      [("If-Modified-Since".data,
        "Thu, 01 Jan 1970 00:00:00 GMT".data)]).body = [] ∧
    (doGET wOneFile "/srv".data "/hello.txt".data
      [("If-Modified-Since".data,
        "Thu, 01 Jan 1970 00:00:00 GMT".data)]).body = [] := by
  decide

/-- C5 (amended): for every request for a path resolving to an existing
regular file — conditional or not, for every header set — a HEAD returns
exactly the same status and headers as the GET with the same path and
headers, and an empty body; when the request carries no
`If-Modified-Since` header that shared status is 200 (a conditional pair
can instead share a 304). -/
theorem c5_head_matches_get (w : World) (docRoot reqPath : PyStr)
    (hs : List (PyStr × PyStr)) (fd : FileData)
    (hdir : w.isDir (translate_path docRoot reqPath) = false)
    (hnoslash : pyEndsWith '/' (translate_path docRoot reqPath) = false)
    (hopen : w.openFile (translate_path docRoot reqPath) = some fd) :
    (doHEAD w docRoot reqPath hs).status = (doGET w docRoot reqPath hs).status ∧
    (doHEAD w docRoot reqPath hs).headers =
      (doGET w docRoot reqPath hs).headers ∧
    (doHEAD w docRoot reqPath hs).body = [] ∧
    ((doHEAD w docRoot reqPath hs).status = 304 →
      (doGET w docRoot reqPath hs).body = []) ∧
    (hasHeader hs "If-Modified-Since".data = false →
      (doHEAD w docRoot reqPath hs).status = 200) := by
  have hG1 := send_head_not_dir w docRoot ⟨Method.GET, reqPath, hs⟩ hdir
  have hH1 := send_head_not_dir w docRoot ⟨Method.HEAD, reqPath, hs⟩ hdir
  have hmf := sendFileHead_method_free w reqPath hs _ fd hnoslash hopen
  refine ⟨?_, ?_, ?_, ?_, ?_⟩
  · simp only [doGET, doHEAD, hG1, hH1, hmf]
  · simp only [doGET, doHEAD, hG1, hH1, hmf]
  · simp only [doHEAD, hH1]
    exact sendFileHead_fst_body_empty w ⟨Method.HEAD, reqPath, hs⟩ _ fd
      hnoslash hopen
  · intro h304
    have hn : (sendFileHead w ⟨Method.GET, reqPath, hs⟩
        (translate_path docRoot reqPath)).2 = none := by
      apply sendFileHead_304_no_file w ⟨Method.GET, reqPath, hs⟩ _ fd
        hnoslash hopen
      rw [← hmf]
      simpa only [doHEAD, hH1] using h304
    have hb := sendFileHead_fst_body_empty w ⟨Method.GET, reqPath, hs⟩
      (translate_path docRoot reqPath) fd hnoslash hopen
    simp only [doGET, hG1, hn, hb, Option.getD_none, List.append_nil]
  · intro hims
    have h2 := sendFileHead_ok w ⟨Method.HEAD, reqPath, hs⟩ _ fd hnoslash
      hopen hims
    simp only [doHEAD, hH1, h2]

/-- C5 witness: `HEAD /hello.txt` in the concrete world shares status
and headers with the GET, has an empty body, and — the request being
unconditional — that shared status is 200. -/
theorem c5_head_matches_get_witness :
    (doHEAD wOneFile "/srv".data "/hello.txt".data []).status =
      (doGET wOneFile "/srv".data "/hello.txt".data []).status ∧
    (doHEAD wOneFile "/srv".data "/hello.txt".data []).headers =
      (doGET wOneFile "/srv".data "/hello.txt".data []).headers ∧
    (doHEAD wOneFile "/srv".data "/hello.txt".data []).body = [] ∧
    (doHEAD wOneFile "/srv".data "/hello.txt".data []).status = 200 :=
  have h := c5_head_matches_get wOneFile "/srv".data "/hello.txt".data []
    ⟨[104, 105], 0⟩ (by decide) (by decide) (by decide)
  ⟨h.1, h.2.1, h.2.2.1, h.2.2.2.2 (by decide)⟩

/-- C2 counterexample: the claim "if no index file exists the request
fails with 404 and the server never generates a directory listing" is
false.  In the concrete world `GET /` resolves to the directory `/srv/`,
no `index.html` (or `index.htm`) exists, and the response is a 200 with
a nonempty generated HTML directory listing — not a 404. -/
theorem c2_counterexample :
    wOneFile.isDir (translate_path "/srv".data "/".data) = true ∧
    wOneFile.isFile
      (osJoin (translate_path "/srv".data "/".data) "index.html".data) = false ∧
    wOneFile.isFile
      (osJoin (translate_path "/srv".data "/".data) "index.htm".data) = false ∧
    (doGET wOneFile "/srv".data "/".data []).status = 200 ∧
    ¬ (doGET wOneFile "/srv".data "/".data []).status = 404 ∧
    ¬ (doGET wOneFile "/srv".data "/".data []).body = [] := by
  decide

/-- C2 (amended): for a GET whose target is one `urlsplit` returns on
(bracket-free, ASCII netloc — outside that set the real `urlsplit`
raises and no response is sent), whose path resolves to a directory, and
whose URL path component ends with a slash, the server first attempts
`index.html` inside the directory — an existing index that opens is
served as an unconditional file request would be — and if neither
`index.html` nor `index.htm` is a regular file the server does not fail
with 404 but serves a generated directory listing with status 200,
whose body (stated for all-ASCII entry names and an ASCII-decoding
request path, where the embedded sort key and unquote coincide exactly
with CPython's) is the generated HTML index; a 404 arises only when
reading the directory itself fails.  (Without the trailing slash the
server redirects with 301 instead.) -/
theorem c2_directory_conventions (w : World) (docRoot reqPath : PyStr)
    (hs : List (PyStr × PyStr))
    (hok : urlsplitReturns reqPath = true)
    (hdir : w.isDir (translate_path docRoot reqPath) = true)
    (hslash : pyEndsWith '/' (urlsplit reqPath).upath = true) :
    (∀ fd : FileData,
      w.isFile (osJoin (translate_path docRoot reqPath) "index.html".data) =
        true →
      w.openFile (osJoin (translate_path docRoot reqPath) "index.html".data) =
        some fd →
      hasHeader hs "If-Modified-Since".data = false →
      (doGET w docRoot reqPath hs).status = 200 ∧
      (doGET w docRoot reqPath hs).body = fd.bytes) ∧
    (w.isFile (osJoin (translate_path docRoot reqPath) "index.html".data) =
        false →
      w.isFile (osJoin (translate_path docRoot reqPath) "index.htm".data) =
        false →
      ∀ es, w.listdir (translate_path docRoot reqPath) = some es →
      (doGET w docRoot reqPath hs).status = 200 ∧
      (allAscii (unquoteList reqPath) = true → es.all allAscii = true →
        (doGET w docRoot reqPath hs).body =
          encodeUTF8 (listingHTML w reqPath (translate_path docRoot reqPath) es))) ∧
    (w.isFile (osJoin (translate_path docRoot reqPath) "index.html".data) =
        false →
      w.isFile (osJoin (translate_path docRoot reqPath) "index.htm".data) =
        false →
      w.listdir (translate_path docRoot reqPath) = none →
      (doGET w docRoot reqPath hs).status = 404) := by
  refine ⟨?_, ?_, ?_⟩
  · intro fd hih hopen hims
    have h1 := send_head_dir_index w docRoot ⟨Method.GET, reqPath, hs⟩ hdir hslash hih
    have h2 := sendFileHead_ok w ⟨Method.GET, reqPath, hs⟩ _ fd
      (index_html_no_trailing_slash _) hopen hims
    refine ⟨?_, ?_⟩ <;> simp [doGET, h1, h2]
  · intro hih hihm es hls
    have h1 := send_head_dir_no_index w docRoot ⟨Method.GET, reqPath, hs⟩
      hdir hslash hih hihm
    have h2 := list_directory_some w Method.GET reqPath
      (translate_path docRoot reqPath) es hls
    refine ⟨?_, fun _ _ => ?_⟩ <;> simp [doGET, h1, h2]
  · intro hih hihm hls
    have h1 := send_head_dir_no_index w docRoot ⟨Method.GET, reqPath, hs⟩
      hdir hslash hih hihm
    have h2 := list_directory_none w Method.GET reqPath
      (translate_path docRoot reqPath) hls
    simp [doGET, h1, h2, send_error]

/-- C2 witness: applying the amended theorem in the concrete world,
`GET /` (a bracket-free ASCII target; directory, trailing slash, no
index files, listable) is a 200 whose body is the generated listing of
the empty entry list. -/
theorem c2_directory_conventions_witness :
    (doGET wOneFile "/srv".data "/".data []).status = 200 ∧
    (doGET wOneFile "/srv".data "/".data []).body =
      encodeUTF8 (listingHTML wOneFile "/".data "/srv/".data []) :=
  have h := (c2_directory_conventions wOneFile "/srv".data "/".data []
    (by decide) (by decide) (by decide)).2.1 (by decide) (by decide) []
    (by decide)
  ⟨h.1, h.2 (by decide) (by decide)⟩
